import Mathlib

/-!
Verification of the OneRoom Health Canvas plugin
(`orh_canvas_plugin/protocols/my_protocol.py`).

The development shallowly embeds the event-processing pipeline of the
plugin: appointment normalization (timestamps, age, location, note-id and
meeting-link fallbacks), payload construction (`_build_room_event_input`),
webhook dispatch (`_send_webhook`, `_compute_signature`) and the top-level
`compute` control flow.  Python dicts serialized by `json.dumps` are
modelled by the inductive `JVal`; Python truthiness on optional strings
and integers is modelled explicitly.
-/

/-- JSON values as produced by the plugin (Python dicts/lists/str/int/bool/None). -/
inductive JVal where
  | null : JVal
  | str : String → JVal
  | num : Int → JVal
  | bool : Bool → JVal
  | arr : List JVal → JVal
  | obj : List (String × JVal) → JVal
deriving Repr

/-- Escape a character the way `json.dumps` escapes it (restricted to the
quote and backslash, the only special characters arising in this code). -/
def escChar (c : Char) : List Char :=
  if c = '"' then ['\\', '"']
  else if c = '\\' then ['\\', '\\']
  else [c]

/-- Escape a string for JSON output. -/
def escStr (s : String) : String :=
  String.mk (s.data.foldr (fun c acc => escChar c ++ acc) [])

/-- A JSON string literal. -/
def jstr (s : String) : String := "\"" ++ escStr s ++ "\""

mutual
/-- `json.dumps` with the given item and key separators. -/
def JVal.dumps (isep ksep : String) : JVal → String
  | .null => "null"
  | .str s => jstr s
  | .num n => toString n
  | .bool b => cond b "true" "false"
  | .arr xs => "[" ++ dumpsArr isep ksep xs ++ "]"
  | .obj kvs => "\x7b" ++ dumpsObj isep ksep kvs ++ "\x7d"

/-- Serialize the elements of a JSON array. -/
def dumpsArr (isep ksep : String) : List JVal → String
  | [] => ""
  | [x] => JVal.dumps isep ksep x
  | x :: y :: r => JVal.dumps isep ksep x ++ isep ++ dumpsArr isep ksep (y :: r)

/-- Serialize the members of a JSON object. -/
def dumpsObj (isep ksep : String) : List (String × JVal) → String
  | [] => ""
  | [(k, v)] => jstr k ++ ksep ++ JVal.dumps isep ksep v
  | (k, v) :: kv :: r =>
    jstr k ++ ksep ++ JVal.dumps isep ksep v ++ isep ++ dumpsObj isep ksep (kv :: r)
end

/-- `json.dumps(x, separators=(',', ':'))`, as used for the webhook body. -/
def dumpsCompact (v : JVal) : String := JVal.dumps "," ":" v

/-- `json.dumps(x)` with the default separators, as used for the effect payload. -/
def dumpsDefault (v : JVal) : String := JVal.dumps ", " ": " v

/-- Is this JSON value `null`? -/
def JVal.isNull : JVal → Bool
  | .null => true
  | _ => false

mutual
/-- Does the value contain, at any depth, an object key bound to `null`? -/
def JVal.hasNullField : JVal → Bool
  | .arr xs => hasNullFieldArr xs
  | .obj kvs => hasNullFieldObj kvs
  | _ => false

/-- `JVal.hasNullField` over array elements. -/
def hasNullFieldArr : List JVal → Bool
  | [] => false
  | x :: r => x.hasNullField || hasNullFieldArr r

/-- `JVal.hasNullField` over object members. -/
def hasNullFieldObj : List (String × JVal) → Bool
  | [] => false
  | (_, v) :: r => v.isNull || v.hasNullField || hasNullFieldObj r
end

/-- Python truthiness of an optional string (`None` and `""` are falsy). -/
def truthyOS : Option String → Bool
  | some s => s ≠ ""
  | none => false

/-- Python truthiness of an optional integer (`None` and `0` are falsy). -/
def truthyOI : Option Int → Bool
  | some n => n ≠ 0
  | none => false

/-- Python `a or b` for a string `a` already extracted from an optional slot. -/
def pyOrS (a b : String) : String := if a = "" then b else a

/-- Python `o or b` where `o` is an optional string and `b` a string. -/
def pyOrOS (o : Option String) (b : String) : String :=
  match o with
  | some s => if s = "" then b else s
  | none => b

/-- Python `str(o)` on an optional string: `str(None)` is the text `"None"`. -/
def pyStrOpt : Option String → String
  | some s => s
  | none => "None"

/-- ASCII lowercase of a character (Python `str.lower` on this data). -/
def charLower (c : Char) : Char :=
  if 65 ≤ c.toNat ∧ c.toNat ≤ 90 then Char.ofNat (c.toNat + 32) else c

/-- ASCII uppercase of a character (Python `str.upper` on this data). -/
def charUpper (c : Char) : Char :=
  if 97 ≤ c.toNat ∧ c.toNat ≤ 122 then Char.ofNat (c.toNat - 32) else c

/-- Python `s.lower()`. -/
def strLower (s : String) : String := String.mk (s.data.map charLower)

/-- Python `s.upper()`. -/
def strUpper (s : String) : String := String.mk (s.data.map charUpper)

/-- JSON image of an optional string (`None` becomes `null`). -/
def optJS : Option String → JVal
  | some s => .str s
  | none => .null

/-- JSON image of an optional integer. -/
def optJI : Option Int → JVal
  | some n => .num n
  | none => .null

/-- JSON image of an optional boolean. -/
def optJB : Option Bool → JVal
  | some b => .bool b
  | none => .null

/-- The decimal digit character for `n % 10`-style values. -/
def digitChar : Nat → Char
  | 0 => '0' | 1 => '1' | 2 => '2' | 3 => '3' | 4 => '4'
  | 5 => '5' | 6 => '6' | 7 => '7' | 8 => '8' | _ => '9'

/-- Is the character a decimal digit? -/
def isDigitC (c : Char) : Bool := 48 ≤ c.toNat && c.toNat ≤ 57

/-- Numeric value of a digit character. -/
def digitVal (c : Char) : Nat := c.toNat - 48

/-- Render `n` as exactly `w` zero-padded decimal digits (most significant first). -/
def renderPad : Nat → Nat → List Char
  | 0, _ => []
  | w + 1, n => digitChar (n / 10 ^ w) :: renderPad w (n % 10 ^ w)

/-- Consume exactly `w` digit characters, accumulating their value onto `acc`. -/
def parseDigitsAux : Nat → Nat → List Char → Option (Nat × List Char)
  | 0, acc, l => some (acc, l)
  | w + 1, acc, l =>
    match l with
    | [] => none
    | c :: r => if isDigitC c then parseDigitsAux w (acc * 10 + digitVal c) r else none

/-- Consume exactly `w` digit characters from the front of the list. -/
def parseDigits (w : Nat) (l : List Char) : Option (Nat × List Char) :=
  parseDigitsAux w 0 l

/-- Consume one expected character. -/
def expectChar (c : Char) : List Char → Option (List Char)
  | [] => none
  | x :: r => if x = c then some r else none

/-- A calendar date (`datetime.date`). -/
structure Date where
  year : Nat
  month : Nat
  day : Nat
deriving Repr, DecidableEq

/-- A wall-clock datetime (`datetime.datetime`, second precision; the
plugin's formatting forces the millisecond field to zero so sub-second
precision never influences the output). -/
structure DateTime where
  year : Nat
  month : Nat
  day : Nat
  hour : Nat
  minute : Nat
  second : Nat
deriving Repr, DecidableEq

/-- Is `y` a Gregorian leap year? -/
def isLeap (y : Nat) : Bool := y % 4 = 0 && (y % 100 ≠ 0 || y % 400 = 0)

/-- Days in month `m` of year `y`. -/
def daysInMonth (y m : Nat) : Nat :=
  if m = 2 then (if isLeap y then 29 else 28)
  else if m = 4 || m = 6 || m = 9 || m = 11 then 30
  else 31

/-- Validity of a calendar date as enforced by `datetime.date`. -/
def validDate (y m d : Nat) : Bool :=
  1 ≤ y && y ≤ 9999 && 1 ≤ m && m ≤ 12 && 1 ≤ d && d ≤ daysInMonth y m

/-- Validity of a datetime as enforced by `datetime.datetime`. -/
def validDT (dt : DateTime) : Bool :=
  validDate dt.year dt.month dt.day && dt.hour ≤ 23 && dt.minute ≤ 59 && dt.second ≤ 59

/-- Build a datetime, validating fields the way the `datetime` constructor does. -/
def mkDateTime (y mo d h mi s : Nat) : Option DateTime :=
  if validDate y mo d && h ≤ 23 && mi ≤ 59 && s ≤ 59 then
    some ⟨y, mo, d, h, mi, s⟩
  else none

/-- Parse `:SS[.fff[fff]]` (an optional seconds component with an optional
3- or 6-digit fraction, which `fromisoformat` accepts and the plugin's
format then discards). -/
def parseSecFrac (l : List Char) : Option (Nat × List Char) :=
  match l with
  | c :: r =>
    if c = ':' then
      match parseDigits 2 r with
      | some (s, r2) =>
        match r2 with
        | c2 :: r3 =>
          if c2 = '.' then
            let ds := r3.takeWhile isDigitC
            let rest := r3.dropWhile isDigitC
            if ds.length = 3 ∨ ds.length = 6 then some (s, rest) else none
          else some (s, r2)
        | [] => some (s, r2)
      | none => none
    else some (0, l)
  | [] => some (0, l)

/-- Parse an optional trailing UTC-style offset `±HH:MM`; the whole rest of
the input must be consumed. -/
def parseOffset (l : List Char) : Option Unit :=
  match l with
  | [] => some ()
  | c :: r =>
    if c = '+' ∨ c = '-' then
      match parseDigits 2 r with
      | some (_, r2) =>
        match expectChar ':' r2 with
        | some r3 =>
          match parseDigits 2 r3 with
          | some (_, r4) => if r4.isEmpty then some () else none
          | none => none
        | none => none
      | none => none
    else none

/-- Parse the time-of-day part `HH[:MM[:SS[.fff]]][±HH:MM]`. -/
def parseTimePart (l : List Char) : Option (Nat × Nat × Nat) :=
  match parseDigits 2 l with
  | none => none
  | some (h, r) =>
    match r with
    | c :: r2 =>
      if c = ':' then
        match parseDigits 2 r2 with
        | none => none
        | some (mi, r3) =>
          match parseSecFrac r3 with
          | none => none
          | some (s, r4) =>
            match parseOffset r4 with
            | some _ => some (h, mi, s)
            | none => none
      else
        match parseOffset r with
        | some _ => some (h, 0, 0)
        | none => none
    | [] =>
      match parseOffset r with
      | some _ => some (h, 0, 0)
      | none => none

/-- `datetime.fromisoformat` on a character list:
`YYYY-MM-DD[<sep>HH[:MM[:SS[.fff]]][±HH:MM]]` with field validation. -/
def parseIso (l : List Char) : Option DateTime :=
  match parseDigits 4 l with
  | none => none
  | some (y, r1) =>
    match expectChar '-' r1 with
    | none => none
    | some r2 =>
      match parseDigits 2 r2 with
      | none => none
      | some (mo, r3) =>
        match expectChar '-' r3 with
        | none => none
        | some r4 =>
          match parseDigits 2 r4 with
          | none => none
          | some (d, r5) =>
            match r5 with
            | [] => mkDateTime y mo d 0 0 0
            | _sep :: r6 =>
              match parseTimePart r6 with
              | none => none
              | some (h, mi, s) => mkDateTime y mo d h mi s

/-- `s.replace('Z', '+00:00')` on character lists. -/
def replaceZChars : List Char → List Char
  | [] => []
  | c :: r =>
    if c = 'Z' then '+' :: '0' :: '0' :: ':' :: '0' :: '0' :: replaceZChars r
    else c :: replaceZChars r

/-- `datetime.fromisoformat(s.replace('Z', '+00:00'))`, the parse step the
plugin applies to start and end times. -/
def fromisoformatZ (s : String) : Option DateTime := parseIso (replaceZChars s.data)

/-- Character list of `dt.strftime('%Y-%m-%dT%H:%M:%S.000Z')`. -/
def strftimeChars (dt : DateTime) : List Char :=
  renderPad 4 dt.year ++ '-' :: renderPad 2 dt.month ++ '-' :: renderPad 2 dt.day ++
    'T' :: renderPad 2 dt.hour ++ ':' :: renderPad 2 dt.minute ++ ':' :: renderPad 2 dt.second ++
    ['.', '0', '0', '0', 'Z']

/-- `dt.strftime('%Y-%m-%dT%H:%M:%S.000Z')`: the plugin's fixed output format. -/
def strftimeMs (dt : DateTime) : String := String.mk (strftimeChars dt)

/-- `str(d)` for a `datetime.date`: ISO `YYYY-MM-DD`. -/
def renderDateStr (d : Date) : String :=
  String.mk (renderPad 4 d.year ++ '-' :: renderPad 2 d.month ++ '-' :: renderPad 2 d.day)

/-- Days since 1970-01-01 of a civil date (Gregorian calendar). -/
def daysFromCivil (y m d : Nat) : Int :=
  let yy : Int := if m ≤ 2 then (y : Int) - 1 else (y : Int)
  let era : Int := Int.ediv yy 400
  let yoe : Int := yy - era * 400
  let mp : Int := ((m : Int) + 9) % 12
  let doy : Int := Int.ediv (153 * mp + 2) 5 + (d : Int) - 1
  let doe : Int := yoe * 365 + Int.ediv yoe 4 - Int.ediv yoe 100 + doy
  era * 146097 + doe - 719468

/-- Civil date of a day count since 1970-01-01. -/
def civilFromDays (z0 : Int) : Int × Int × Int :=
  let z := z0 + 719468
  let era := Int.ediv z 146097
  let doe := z - era * 146097
  let yoe := Int.ediv (doe - Int.ediv doe 1460 + Int.ediv doe 36524 - Int.ediv doe 146096) 365
  let y := yoe + era * 400
  let doy := doe - (365 * yoe + Int.ediv yoe 4 - Int.ediv yoe 100)
  let mp := Int.ediv (5 * doy + 2) 153
  let d := doy - Int.ediv (153 * mp + 2) 5 + 1
  let m := if mp < 10 then mp + 3 else mp - 9
  (if m ≤ 2 then y + 1 else y, m, d)

/-- Seconds since the epoch of a datetime. -/
def toEpochSeconds (dt : DateTime) : Int :=
  daysFromCivil dt.year dt.month dt.day * 86400 +
    ((dt.hour * 3600 + dt.minute * 60 + dt.second : Nat) : Int)

/-- Datetime of an epoch second count, provided the year stays in the
range `datetime` supports (otherwise the addition overflows and raises). -/
def ofEpochSecondsChecked (t : Int) : Option DateTime :=
  let days := Int.ediv t 86400
  let sod := (Int.emod t 86400).toNat
  let ymd := civilFromDays days
  if 1 ≤ ymd.1 ∧ ymd.1 ≤ 9999 then
    some ⟨ymd.1.toNat, ymd.2.1.toNat, ymd.2.2.toNat, sod / 3600, sod % 3600 / 60, sod % 60⟩
  else none

/-- `dt + timedelta(minutes=m)`, returning `none` when the addition
overflows the representable range (Python raises `OverflowError`, which the
plugin catches). -/
def addMinutesChecked (dt : DateTime) (m : Int) : Option DateTime :=
  ofEpochSecondsChecked (toEpochSeconds dt + m * 60)

/-- One element of a FHIR `coding` list (`code`/`display`/`system`). -/
structure RawCoding where
  code : Option String := none
  display : Option String := none
  system : Option String := none
deriving Repr

/-- The shape of a truthy `appointment_type` attribute: either it exposes
`code`/`display`/`system` directly, or it exposes a `coding` list. -/
inductive RawApptType where
  | fields (code display system : Option String)
  | codingList (coding : List RawCoding)
deriving Repr

/-- A FHIR-style extension entry (`url`/`valueId`), used for the note-id fallback. -/
structure RawExt where
  url : Option String := none
  valueId : Option String := none
deriving Repr

/-- A contained resource (`resourceType`/`address`), used for the meeting-link fallback. -/
structure RawContained where
  resourceType : Option String := none
  address : Option String := none
deriving Repr

/-- The appointment's `location` attribute: a plain string, or an object
probed for `name`/`display`/`text` with `str(location)` as last resort. -/
inductive RawLocation where
  | strVal (s : String)
  | objVal (name display text : Option String) (rendered : String)
deriving Repr

/-- A participant's `actor` (nested `reference` and `type`). -/
structure RawActor where
  reference : Option String := none
  type : Option String := none
deriving Repr

/-- One entry of the appointment's participant list. -/
structure RawParticipant where
  actor : Option RawActor := none
  reference : Option String := none
deriving Repr

/-- The patient's `date_of_birth` attribute: a `datetime.date` or a string. -/
def DobValue : Type := Date ⊕ String

/-- The raw patient object, as read by `compute` (absent attributes are `none`;
string-rendered attributes are stored already rendered). -/
structure RawPatient where
  id : Option String := none
  dbid : Option Int := none
  first_name : Option String := none
  last_name : Option String := none
  date_of_birth : Option DobValue := none
  sex : Option String := none
  created : Option String := none
  modified : Option String := none

/-- The raw provider (staff) object, as read by `compute`. -/
structure RawProvider where
  id : Option String := none
  dbid : Option Int := none
  first_name : Option String := none
  last_name : Option String := none
  created : Option String := none
  modified : Option String := none

/-- One external identifier row; `compute` copies these fields verbatim
(dates already string-rendered). -/
structure ExternalIdentifier where
  id : String := ""
  system : Option String := none
  value : Option String := none
  use : Option String := none
  identifier_type : Option String := none
  issued_date : Option String := none
  expiration_date : Option String := none
deriving Repr

/-- One appointment metadata row. -/
structure MetaEntry where
  id : String := ""
  key : Option String := none
  value : Option String := none
deriving Repr

/-- The raw appointment object graph handed to the plugin (host-provided;
every attribute may be absent). `none` models an absent or falsy attribute. -/
structure RawAppointment where
  dbid : Option Int := none
  start_time : Option String := none
  end_time : Option String := none
  duration_minutes : Option Int := none
  status : Option String := none
  comment : Option String := none
  note_id : Option String := none
  note_type_id : Option Int := none
  appointment_type : Option RawApptType := none
  appointmentTypeCamel : Option (List RawCoding) := none
  extensions : List RawExt := []
  contained : List RawContained := []
  meeting_link : Option String := none
  telehealth_instructions_sent : Option Bool := none
  entered_in_error : Option String := none
  description : Option String := none
  created : Option String := none
  modified : Option String := none
  parent_appointment_id : Option String := none
  appointment_rescheduled_from_id : Option String := none
  external_identifiers : List ExternalIdentifier := []
  metadata : List MetaEntry := []
  patient : Option RawPatient := none
  provider : Option RawProvider := none
  participants : List RawParticipant := []
  location : Option RawLocation := none

/-- The inbound event as the entry point consumes it: the target id, an
optional attached appointment instance, the result of the fallback query,
the note uuid from the context, and the event type name. -/
structure EventInput where
  targetId : String
  targetInstance : Option RawAppointment := none
  queryResult : Option RawAppointment := none
  contextNoteUuid : Option String := none
  eventType : String := "APPOINTMENT_CREATED"

/-- The two readings of the process clock used by `compute`:
`datetime.now().isoformat()` for the payload timestamp and
`datetime.now().date()` for the age calculation. -/
structure Clock where
  nowIso : String
  today : Date
deriving Repr

/-- The configuration values `_send_webhook`/`_build_room_event_input` read
from the secrets store (`.get` defaults applied as in the source). -/
structure Secrets where
  apiKey : String := ""
  canvasWebhookSecret : String := ""
  oneroomRoomId : Option String := none

/-- The resolved `appointment_type` triple. -/
structure ApptTypeData where
  code : Option String := none
  display : Option String := none
  system : Option String := none
deriving Repr

/-- The `patient_data` dict built by `compute`. -/
structure PatientData where
  id : Option String := none
  dbid : Option Int := none
  first_name : Option String := none
  last_name : Option String := none
  date_of_birth : Option String := none
  gender : Option String := none
  age : Option Int := none
  created_at : Option String := none
  modified_at : Option String := none

/-- The `provider_data` dict built by `compute`. -/
structure ProviderData where
  id : Option String := none
  dbid : Option Int := none
  name : Option String := none
  first_name : Option String := none
  last_name : Option String := none
  created_at : Option String := none
  modified_at : Option String := none

/-- One `schedule_user_data` entry built by `compute` (keys `Id`, `name`,
`role`, `email`). -/
structure SchedUser where
  idOpt : Option String := none
  name : Option String := none
  role : String := "participant"
  email : String := ""

/-- The `appointment_data` dict built by `compute`. -/
structure ApptData where
  id : String
  dbid : Option Int := none
  start_time : Option String := none
  end_time : Option String := none
  duration_minutes : Option Int := none
  status : Option String := none
  comment : Option String := none
  note_id : Option String := none
  note_type_id : Option Int := none
  appointment_type : ApptTypeData := {}
  location : Option String := none
  meeting_link : Option String := none
  telehealth_instructions_sent : Option Bool := none
  entered_in_error : Option String := none
  description : Option String := none
  created_at : Option String := none
  modified_at : Option String := none
  parent_appointment_id : Option String := none
  appointment_rescheduled_from_id : Option String := none
  external_identifiers : List ExternalIdentifier := []
  metadata : List MetaEntry := []

/-- The parts of the `webhook_payload` dict that `_build_room_event_input`
reads (`timestamp`, `appointment`, `patient`, `provider`,
`schedule_user_data`). -/
structure WebhookPayload where
  event_type : String
  timestamp : String
  appointment : ApptData
  patient : Option PatientData := none
  provider : Option ProviderData := none
  schedule_user_data : List SchedUser := []

/-- CPython `strptime` `%m` field: `1[0-2]|0[1-9]|[1-9]`, alternatives tried
in that order. -/
def parseMonthCh : List Char → Option (Nat × List Char)
  | [] => none
  | c1 :: rest =>
    match rest with
    | c2 :: r2 =>
      if c1 = '1' ∧ (c2 = '0' ∨ c2 = '1' ∨ c2 = '2') then some (10 + (c2.toNat - 48), r2)
      else if c1 = '0' ∧ 49 ≤ c2.toNat ∧ c2.toNat ≤ 57 then some (c2.toNat - 48, r2)
      else if 49 ≤ c1.toNat ∧ c1.toNat ≤ 57 then some (c1.toNat - 48, rest)
      else none
    | [] => if 49 ≤ c1.toNat ∧ c1.toNat ≤ 57 then some (c1.toNat - 48, []) else none

/-- CPython `strptime` `%d` field: `3[01]|[12]\d|0[1-9]|[1-9]`. -/
def parseDayCh : List Char → Option (Nat × List Char)
  | [] => none
  | c1 :: rest =>
    match rest with
    | c2 :: r2 =>
      if c1 = '3' ∧ (c2 = '0' ∨ c2 = '1') then some (30 + (c2.toNat - 48), r2)
      else if (c1 = '1' ∨ c1 = '2') ∧ 48 ≤ c2.toNat ∧ c2.toNat ≤ 57 then
        some ((c1.toNat - 48) * 10 + (c2.toNat - 48), r2)
      else if 49 ≤ c1.toNat ∧ c1.toNat ≤ 57 then some (c1.toNat - 48, rest)
      else none
    | [] => if 49 ≤ c1.toNat ∧ c1.toNat ≤ 57 then some (c1.toNat - 48, []) else none

/-- `datetime.strptime(s, '%Y-%m-%d').date()`: four-digit year, then month
and day fields, whole-string match, then `date` range validation. -/
def strptimeDate (s : String) : Option Date :=
  match parseDigits 4 s.data with
  | none => none
  | some (y, r1) =>
    match expectChar '-' r1 with
    | none => none
    | some r2 =>
      match parseMonthCh r2 with
      | none => none
      | some (m, r3) =>
        match expectChar '-' r3 with
        | none => none
        | some r4 =>
          match parseDayCh r4 with
          | none => none
          | some (d, r5) =>
            if r5.isEmpty ∧ validDate y m d then some ⟨y, m, d⟩ else none

/-- Lexicographic comparison `(today.month, today.day) < (dob.month, dob.day)`. -/
def monthDayLt (tm td dm dd : Nat) : Bool := tm < dm || (tm = dm && td < dd)

/-- The age formula of `_calculate_age`:
`today.year - dob.year - ((today.month, today.day) < (dob.month, dob.day))`. -/
def ageOf (dob : Date) (today : Date) : Int :=
  (today.year : Int) - (dob.year : Int) -
    (if monthDayLt today.month today.day dob.month dob.day then 1 else 0)

/-- `_calculate_age`: `None` for a falsy birth date, `strptime` for strings
(any parse failure is swallowed and yields `None`), the formula otherwise. -/
def calculateAge (dob : Option DobValue) (today : Date) : Option Int :=
  match dob with
  | none => none
  | some (Sum.inl d) => some (ageOf d today)
  | some (Sum.inr s) =>
    if s = "" then none
    else
      match strptimeDate s with
      | some d => some (ageOf d today)
      | none => none

/-- First truthy value among an optional and a fallback thunk value. -/
def pickTruthy (o : Option String) (alt : Option String) : Option String :=
  match o with
  | some s => if s = "" then alt else some s
  | none => alt

/-- Substring test on character lists. -/
def listContainsSub (pat : List Char) : List Char → Bool
  | [] => pat.isEmpty
  | c :: t => List.isPrefixOf pat (c :: t) || listContainsSub pat t

/-- Python `pat in s` for strings. -/
def containsSub (s pat : String) : Bool := listContainsSub pat.data s.data

/-- `_get_location_name`: strings pass through; objects are probed for
truthy `name`/`display`/`text`; otherwise `str(location)` is used unless it
looks like a default object rendering. -/
def locationName : Option RawLocation → Option String
  | none => none
  | some (.strVal s) => some s
  | some (.objVal n d t rend) =>
    pickTruthy n (pickTruthy d (pickTruthy t
      (if rend.startsWith "<" ∨ containsSub rend "object at" then none else some rend)))

/-- The fixed note-id extension URI scanned by the fallback. -/
def noteIdExtensionUri : String := "http://schemas.canvasmedical.com/fhir/extensions/note-id"

/-- FHIR-extension fallback for the note id: first extension whose `url`
equals the fixed URI and whose `valueId` is truthy. -/
def extNoteId : List RawExt → Option String
  | [] => none
  | e :: r =>
    if e.url == some noteIdExtensionUri then
      match e.valueId with
      | some v => if v = "" then extNoteId r else some v
      | none => extNoteId r
    else extNoteId r

/-- Contained-resource fallback for the meeting link: first contained entry
whose `resourceType` case-insensitively equals `endpoint` and whose
`address` is truthy. -/
def containedEndpoint : List RawContained → Option String
  | [] => none
  | c :: r =>
    if strLower (pyStrOpt c.resourceType) == "endpoint" then
      match c.address with
      | some a => if a = "" then containedEndpoint r else some a
      | none => containedEndpoint r
    else containedEndpoint r

/-- Take the first element of a truthy `coding` list (an empty list leaves
all three fields unset). -/
def resolveCoding : List RawCoding → ApptTypeData
  | [] => {}
  | c :: _ => ⟨c.code, c.display, c.system⟩

/-- The appointment-type probing of `compute` lines 95-124: a truthy
`appointment_type` with direct fields, else its `coding` list, else the
camelCase `appointmentType` coding list. -/
def resolveApptType (a1 : Option RawApptType) (a2 : Option (List RawCoding)) : ApptTypeData :=
  match a1 with
  | some (.fields c d s) => ⟨c, d, s⟩
  | some (.codingList l) => resolveCoding l
  | none =>
    match a2 with
    | some l => resolveCoding l
    | none => {}

/-- The TEST-OneRoomHealth matching rule of `compute` lines 129-134
(`str(...)` renders `None` as the text `"None"` before comparison). -/
def matchesTestOrh (atd : ApptTypeData) (noteTypeId : Option Int) : Bool :=
  strLower (pyStrOpt atd.display) == "test-oneroomhealth" ||
  strUpper (pyStrOpt atd.code) == "TEST-ORH" ||
  strUpper (pyStrOpt atd.system) == "TEST-ORH" ||
  noteTypeId == some 82

/-- Start-time normalization (lines 272-278): parse and re-render with a
forced `.000Z` suffix; on parse failure the original string is kept. -/
def formatStartTime (st : Option String) : Option String :=
  match st with
  | none => none
  | some s =>
    match fromisoformatZ s with
    | some dt => some (strftimeMs dt)
    | none => some s

/-- The numeric value of an optional duration. -/
def durVal (o : Option Int) : Int :=
  match o with
  | some n => n
  | none => 0

/-- End-time normalization (lines 281-298): derive end from start plus
duration when the end is falsy and start and duration are truthy (failures,
including datetime overflow, leave the end unchanged); otherwise reformat a
truthy end; otherwise leave it as is. -/
def computeEndTime (endT startFmt : Option String) (dur : Option Int) : Option String :=
  if !truthyOS endT && truthyOS startFmt && truthyOI dur then
    match startFmt with
    | some sf =>
      match fromisoformatZ sf with
      | some sdt =>
        match addMinutesChecked sdt (durVal dur) with
        | some edt => some (strftimeMs edt)
        | none => endT
      | none => endT
    | none => endT
  else if truthyOS endT then
    match endT with
    | some e =>
      match fromisoformatZ e with
      | some edt => some (strftimeMs edt)
      | none => endT
    | none => endT
  else endT

/-- `str(date_of_birth)` as stored in `patient_data`. -/
def dobStr : DobValue → String
  | Sum.inl d => renderDateStr d
  | Sum.inr s => s

/-- Truthiness of the `date_of_birth` attribute (dates are truthy, the
empty string is falsy). -/
def truthyDob : Option DobValue → Bool
  | some (Sum.inr s) => s ≠ ""
  | some (Sum.inl _) => true
  | none => false

/-- The `patient_data` dict of `compute` lines 185-195. -/
def patientDataOf (today : Date) (p : RawPatient) : PatientData :=
  { id := p.id
    dbid := p.dbid
    first_name := p.first_name
    last_name := p.last_name
    date_of_birth := if truthyDob p.date_of_birth then p.date_of_birth.map dobStr else none
    gender := p.sex
    age := if truthyDob p.date_of_birth then calculateAge p.date_of_birth today else none
    created_at := p.created
    modified_at := p.modified }

/-- The `provider_data` dict of `compute` lines 204-212 (the `name` field
requires both name attributes to be present). -/
def providerDataOf (p : RawProvider) : ProviderData :=
  { id := p.id
    dbid := p.dbid
    name :=
      match p.first_name, p.last_name with
      | some f, some l => some (f ++ " " ++ l)
      | _, _ => none
    first_name := p.first_name
    last_name := p.last_name
    created_at := p.created
    modified_at := p.modified }

/-- The segment after the last `/` of a reference string. -/
def lastSegment (s : String) : String := (s.splitOn "/").getLastD s

/-- One `schedule_user_data` entry (lines 235-261): resolve the actor
reference, derive the referenced id, classify the row as provider when the
id matches the resolved provider id, and copy the provider name there. -/
def schedUserOf (pd : Option ProviderData) (p : RawParticipant) : SchedUser :=
  let providerId : Option String := pd.bind (fun d => d.id)
  let reference : Option String :=
    match p.actor with
    | some a =>
      match a.reference with
      | some r => some r
      | none => p.reference
    | none => p.reference
  let actorType : Option String := p.actor.bind (fun a => a.type)
  let refId : Option String :=
    match reference with
    | some r => if r = "" then none else some (lastSegment r)
    | none => none
  let isProv : Bool :=
    match providerId, refId with
    | some pi, some ri => pi ≠ "" && ri ≠ "" && ri == pi
    | _, _ => false
  { idOpt := refId
    name := if isProv then pd.bind (fun d => d.name) else some ""
    role :=
      if isProv then "provider"
      else
        match actorType with
        | some t => if t = "" then "participant" else t
        | none => "participant"
    email := "" }

/-- The full `schedule_user_data` list. -/
def scheduleUsersOf (pd : Option ProviderData) (ps : List RawParticipant) : List SchedUser :=
  ps.map (schedUserOf pd)

/-- The `appointment_data` dict of `compute` lines 300-356 (with the
note-id, meeting-link, appointment-type, location and time derivations). -/
def apptDataOf (targetId : String) (raw : RawAppointment) : ApptData :=
  let noteId : Option String :=
    match raw.note_id with
    | some s => if s = "" then extNoteId raw.extensions else some s
    | none => extNoteId raw.extensions
  let meetingLink : Option String :=
    match raw.meeting_link with
    | some s => if s = "" then containedEndpoint raw.contained else some s
    | none => containedEndpoint raw.contained
  let startFmt := formatStartTime raw.start_time
  { id := targetId
    dbid := raw.dbid
    start_time := startFmt
    end_time := computeEndTime raw.end_time startFmt raw.duration_minutes
    duration_minutes := raw.duration_minutes
    status := raw.status
    comment := raw.comment
    note_id := noteId
    note_type_id := raw.note_type_id
    appointment_type := resolveApptType raw.appointment_type raw.appointmentTypeCamel
    location := locationName raw.location
    meeting_link := meetingLink
    telehealth_instructions_sent := raw.telehealth_instructions_sent
    entered_in_error := raw.entered_in_error
    description := raw.description
    created_at := raw.created
    modified_at := raw.modified
    parent_appointment_id := raw.parent_appointment_id
    appointment_rescheduled_from_id := raw.appointment_rescheduled_from_id
    external_identifiers := raw.external_identifiers
    metadata := raw.metadata }

/-- The `webhook_payload` of `compute` lines 359-379 (restricted to the
keys `_build_room_event_input` reads). -/
def webhookPayloadOf (ev : EventInput) (clock : Clock) (raw : RawAppointment) : WebhookPayload :=
  let providerData := raw.provider.map providerDataOf
  { event_type := ev.eventType
    timestamp := clock.nowIso
    appointment := apptDataOf ev.targetId raw
    patient := raw.patient.map (patientDataOf clock.today)
    provider := providerData
    schedule_user_data := scheduleUsersOf providerData raw.participants }

/-- JSON image of the nested `appointment_type` dict. -/
def apptTypeToJVal (a : ApptTypeData) : JVal :=
  .obj [("code", optJS a.code), ("display", optJS a.display), ("system", optJS a.system)]

/-- JSON image of one external-identifier dict. -/
def extIdToJVal (e : ExternalIdentifier) : JVal :=
  .obj [("id", .str e.id), ("system", optJS e.system), ("value", optJS e.value),
        ("use", optJS e.use), ("identifier_type", optJS e.identifier_type),
        ("issued_date", optJS e.issued_date), ("expiration_date", optJS e.expiration_date)]

/-- JSON image of one metadata dict. -/
def metaToJVal (m : MetaEntry) : JVal :=
  .obj [("id", .str m.id), ("key", optJS m.key), ("value", optJS m.value)]

/-- JSON image of the `appointment_data` dict, keys in insertion order. -/
def apptDataToJVal (a : ApptData) : JVal :=
  .obj [("id", .str a.id), ("dbid", optJI a.dbid), ("start_time", optJS a.start_time),
        ("end_time", optJS a.end_time), ("duration_minutes", optJI a.duration_minutes),
        ("status", optJS a.status), ("comment", optJS a.comment), ("note_id", optJS a.note_id),
        ("note_type_id", optJI a.note_type_id), ("appointment_type", apptTypeToJVal a.appointment_type),
        ("location", optJS a.location), ("meeting_link", optJS a.meeting_link),
        ("telehealth_instructions_sent", optJB a.telehealth_instructions_sent),
        ("entered_in_error", optJS a.entered_in_error), ("description", optJS a.description),
        ("created_at", optJS a.created_at), ("modified_at", optJS a.modified_at),
        ("parent_appointment_id", optJS a.parent_appointment_id),
        ("appointment_rescheduled_from_id", optJS a.appointment_rescheduled_from_id),
        ("external_identifiers", .arr (a.external_identifiers.map extIdToJVal)),
        ("metadata", .arr (a.metadata.map metaToJVal))]

/-- JSON image of `patient_data` (the empty dict when no patient). -/
def patientDataToJVal : Option PatientData → JVal
  | none => .obj []
  | some p =>
    .obj [("id", optJS p.id), ("dbid", optJI p.dbid), ("first_name", optJS p.first_name),
          ("last_name", optJS p.last_name), ("date_of_birth", optJS p.date_of_birth),
          ("gender", optJS p.gender), ("age", optJI p.age),
          ("created_at", optJS p.created_at), ("modified_at", optJS p.modified_at)]

/-- JSON image of `provider_data` (the empty dict when no provider). -/
def providerDataToJVal : Option ProviderData → JVal
  | none => .obj []
  | some p =>
    .obj [("id", optJS p.id), ("dbid", optJI p.dbid), ("name", optJS p.name),
          ("first_name", optJS p.first_name), ("last_name", optJS p.last_name),
          ("created_at", optJS p.created_at), ("modified_at", optJS p.modified_at)]

/-- JSON image of one `schUserList` entry (lines 531-538: falsy fields are
replaced with the empty string). -/
def schUserToJVal (p : SchedUser) : JVal :=
  .obj [("id", .str (pyOrOS p.idOpt "")), ("name", .str (pyOrOS p.name "")),
        ("role", .str (pyOrS p.role "")), ("email", .str (pyOrS p.email ""))]

/-- `str(provider.get('id') or '')` over the payload. -/
def providerIdStr (p : WebhookPayload) : String :=
  match p.provider with
  | some pd => pyOrOS pd.id ""
  | none => ""

/-- `str(patient.get('id') or '')` over the payload. -/
def patientIdStr (p : WebhookPayload) : String :=
  match p.patient with
  | some pd => pyOrOS pd.id ""
  | none => ""

/-- First schedule-user id that is truthy (lines 512-517). -/
def firstParticipantId : List SchedUser → Option String
  | [] => none
  | p :: rest =>
    match p.idOpt with
    | some s => if s = "" then firstParticipantId rest else some s
    | none => firstParticipantId rest

/-- `roomId` heuristic (line 525): configured room id, else appointment id,
else appointment location, else the literal `unknown-room`. -/
def roomIdOf (cfg : Option String) (p : WebhookPayload) : String :=
  pyOrOS cfg (pyOrS p.appointment.id (pyOrOS p.appointment.location "unknown-room"))

/-- `eventId` (line 526): the appointment id (`str(appt.get('id') or '')`). -/
def eventIdOf (p : WebhookPayload) : String := p.appointment.id

/-- `userId` heuristic (line 527): provider id, else patient id, else first
truthy participant id, else the literal `unknown-user`. -/
def userIdOf (p : WebhookPayload) : String :=
  pyOrS (providerIdStr p)
    (pyOrS (patientIdStr p) (pyOrOS (firstParticipantId p.schedule_user_data) "unknown-user"))

/-- The combined id (line 528):
`f"{room_id}_{event_id}" if room_id and event_id else str(event_id or '')`. -/
def combinedEventIdOf (cfg : Option String) (p : WebhookPayload) : String :=
  if roomIdOf cfg p ≠ "" ∧ eventIdOf p ≠ "" then roomIdOf cfg p ++ "_" ++ eventIdOf p
  else eventIdOf p

/-- `eventName` (line 542): description, else appointment-type display, else empty. -/
def eventNameOf (p : WebhookPayload) : String :=
  pyOrOS p.appointment.description (pyOrOS p.appointment.appointment_type.display "")

/-- `str(o)` if `o` is truthy else JSON `null` (used for the parent and
rescheduled-from ids, lines 578-579). -/
def strIfTruthy (o : Option String) : JVal :=
  match o with
  | some s => if s = "" then .null else .str s
  | none => .null

/-- `_build_room_event_input`: the `event_input` dict of lines 545-582 in
insertion order, followed by the top-level `None`-stripping of line 586. -/
def buildRoomEventInput (cfg : Option String) (p : WebhookPayload) : List (String × JVal) :=
  let a := p.appointment
  let entries : List (String × JVal) :=
    [("id", .str (combinedEventIdOf cfg p)),
     ("roomId", .str (roomIdOf cfg p)),
     ("eventId", .str (eventIdOf p)),
     ("userId", .str (userIdOf p)),
     ("type", .str "event"),
     ("timestamp", .str p.timestamp),
     ("startTime", optJS a.start_time),
     ("endTime", optJS a.end_time),
     ("eventStatus", optJS a.status),
     ("eventName", .str (eventNameOf p)),
     ("schUserList", .arr (p.schedule_user_data.map schUserToJVal)),
     ("appointment", apptDataToJVal a),
     ("patient", patientDataToJVal p.patient),
     ("provider", providerDataToJVal p.provider),
     ("appointmentId", .str a.id),
     ("appointmentDbId", optJI a.dbid),
     ("durationMinutes", optJI a.duration_minutes),
     ("comment", optJS a.comment),
     ("noteId", optJS a.note_id),
     ("noteTypeId", optJI a.note_type_id),
     ("appointmentTypeCode", optJS a.appointment_type.code),
     ("appointmentTypeDisplay", optJS a.appointment_type.display),
     ("appointmentTypeSystem", optJS a.appointment_type.system),
     ("location", optJS a.location),
     ("meetingLink", optJS a.meeting_link),
     ("telehealthInstructionsSent", optJB a.telehealth_instructions_sent),
     ("enteredInError", optJS a.entered_in_error),
     ("description", optJS a.description),
     ("createdAt", optJS a.created_at),
     ("modifiedAt", optJS a.modified_at),
     ("parentAppointmentId", strIfTruthy a.parent_appointment_id),
     ("rescheduledFromAppointmentId", strIfTruthy a.appointment_rescheduled_from_id),
     ("externalIdentifiers", .arr (a.external_identifiers.map extIdToJVal)),
     ("metadata", .arr (a.metadata.map metaToJVal))]
  entries.filter (fun kv => !kv.2.isNull)

/-- The serialized webhook body (line 453): a compact JSON array holding
exactly the one event-input object. -/
def webhookBody (cfg : Option String) (p : WebhookPayload) : String :=
  dumpsCompact (.arr [.obj (buildRoomEventInput cfg p)])

/-- The wire bytes produced from a raw appointment view by the whole
normalization pipeline (raw view plus clock reading to body string). -/
def buildWire (cfg : Option String) (ev : EventInput) (clock : Clock) (raw : RawAppointment) :
    String :=
  webhookBody cfg (webhookPayloadOf ev clock raw)

/-- The headers of the webhook request (lines 454-464): content type and
user agent always; `x-canvas-signature` only when a signature was computed
and is truthy; bearer authorization only when an API key is configured. -/
def webhookHeaders (apiKey secret : String) (hmac : String → String → String) (body : String) :
    List (String × String) :=
  let signature : Option String := if secret ≠ "" then some (hmac secret body) else none
  let base := [("Content-Type", "application/json"),
               ("User-Agent", "OneRoom-Canvas-Plugin/1.0")]
  let withSig :=
    match signature with
    | some s => if s ≠ "" then base ++ [("x-canvas-signature", s)] else base
    | none => base
  if apiKey ≠ "" then withSig ++ [("Authorization", "Bearer " ++ apiKey)] else withSig

/-- The result of one HTTP POST: a status with body text, or a transport
exception. -/
inductive HttpResult where
  | status (code : Nat) (text : String)
  | exn (msg : String)
deriving Repr, DecidableEq

/-- Did the attempt return HTTP 200? -/
def isStatus200 : HttpResult → Bool
  | .status 200 _ => true
  | _ => false

/-- Observable outcome of the send loop: how many POSTs were issued, the
sleeps performed (in order), and whether delivery succeeded. -/
structure SendOutcome where
  posts : Nat
  sleeps : List Nat
  delivered : Bool
deriving Repr, DecidableEq

/-- The retry loop of `_send_webhook` lines 466-485: at most `n` more
attempts, attempt counter `k`, current backoff `b`; a 200 stops the loop,
any other status or exception logs, sleeps `b`, doubles the backoff and
re-tests the loop condition. -/
def sendLoopAux (f : Nat → HttpResult) : Nat → Nat → Nat → SendOutcome
  | 0, _, _ => ⟨0, [], false⟩
  | n + 1, k, b =>
    if isStatus200 (f (k + 1)) then ⟨1, [], true⟩
    else
      let r := sendLoopAux f n (k + 1) (b * 2)
      ⟨r.posts + 1, b :: r.sleeps, r.delivered⟩

/-- `_send_webhook`'s loop as written: `attempts` starts at 0, the loop
condition is `attempts < 1` (a hardcoded budget of one attempt), the
initial backoff is 2. -/
def sendWebhookRun (f : Nat → HttpResult) : SendOutcome := sendLoopAux f 1 0 2

/-- A host effect (type name plus JSON payload string). -/
structure Effect where
  type : String
  payload : String
deriving Repr, DecidableEq

/-- The fixed narrative string returned to the host. -/
def narrativeString : String :=
  "OneRoom Health: TEST-OneRoomHealth appointment event processed and sent to backend."

/-- The acknowledgement payload of `compute` lines 388-391. -/
def ackJson (ev : EventInput) : JVal :=
  .obj [("note", .obj [("uuid", optJS ev.contextNoteUuid)]),
        ("data", .obj [("narrative", .str narrativeString)])]

/-- The LOG effect returned to the host (line 394). -/
def ackEffect (ev : EventInput) : Effect :=
  ⟨"LOG", dumpsDefault (ackJson ev)⟩

/-- Appointment resolution of `compute` lines 48-55: the attached instance
if truthy, else the first query result. -/
def getAppointment (ev : EventInput) : Option RawAppointment :=
  match ev.targetInstance with
  | some a => some a
  | none => ev.queryResult

/-- Host-observable outcome of one `compute` call: the returned effects,
the number of webhook POSTs issued, and the body sent (if any). -/
structure ComputeOut where
  effects : List Effect
  posts : Nat
  sentBody : Option String
deriving Repr, DecidableEq

/-- The `compute` control flow: resolve the appointment (an empty effect
list when that fails, line 80); any exception in the remaining body
(`assemblyFault`) is caught at line 384; otherwise the classifier flag is
overridden to `True` at line 172 (so the skip branch of lines 173-175 is
dead), the payload is built and the webhook sent; the acknowledgement
effect is returned in all those cases (lines 387-394). -/
def computeFull (ev : EventInput) (clock : Clock) (secrets : Secrets)
    (assemblyFault : Bool) (responder : Nat → HttpResult) : ComputeOut :=
  match getAppointment ev with
  | none => ⟨[], 0, none⟩
  | some raw =>
    if assemblyFault then ⟨[ackEffect ev], 0, none⟩
    else
      let isTestOrh := true
      if isTestOrh = false then ⟨[], 0, none⟩
      else
        let payload := webhookPayloadOf ev clock raw
        let body := webhookBody secrets.oneroomRoomId payload
        let outcome := sendWebhookRun responder
        ⟨[ackEffect ev], outcome.posts, some body⟩

/-- A raw appointment with every optional attribute absent. -/
def raw0 : RawAppointment := {}

/-- An inbound event carrying no appointment instance whose fallback query
also finds nothing. -/
def ev0 : EventInput := { targetId := "appt-1" }

/-- An inbound event with an attached (empty-attribute) appointment instance. -/
def ev1 : EventInput :=
  { targetId := "appt-1", targetInstance := some raw0, contextNoteUuid := some "note-uuid-1" }

/-- An inbound event whose target id is the empty string. -/
def evEmptyId : EventInput := { targetId := "", targetInstance := some raw0 }

/-- A concrete clock reading. -/
def clock0 : Clock := ⟨"2024-05-01T12:00:00.123456", ⟨2024, 5, 1⟩⟩

/-- A later clock reading. -/
def clockLater : Clock := ⟨"2024-05-02T09:30:00.654321", ⟨2024, 5, 2⟩⟩

/-- Empty secrets store (all `.get` defaults). -/
def secrets0 : Secrets := {}

/-- An endpoint that always answers HTTP 500. -/
def alwaysFail500 : Nat → HttpResult := fun _ => .status 500 "Internal Server Error"

/-- A stand-in for the HMAC-SHA256 hex function (any function of secret and
body; the real digest is a 64-character hex string, hence never empty). -/
def hmacDemo : String → String → String := fun s b => "hmac-" ++ s ++ "-" ++ b

/-- The payload built from `ev1` at `clock0`. -/
def payload0 : WebhookPayload := webhookPayloadOf ev1 clock0 raw0

/-- The payload built from the empty-target-id event. -/
def payloadEmptyId : WebhookPayload := webhookPayloadOf evEmptyId clock0 raw0

theorem isDigitC_digitChar (k : Nat) : isDigitC (digitChar k) = true := by
  unfold digitChar
  split <;> decide

theorem digitChar_ne_Z (k : Nat) : digitChar k ≠ 'Z' := by
  unfold digitChar
  split <;> decide

theorem digitVal_digitChar (k : Nat) (h : k < 10) : digitVal (digitChar k) = k := by
  interval_cases k <;> decide

theorem renderPad_length (w n : Nat) : (renderPad w n).length = w := by
  induction w generalizing n with
  | zero => rfl
  | succ w ih => simp [renderPad, ih]

theorem parseDigitsAux_render (w : Nat) :
    ∀ (acc n : Nat) (rest : List Char), n < 10 ^ w →
      parseDigitsAux w acc (renderPad w n ++ rest) = some (acc * 10 ^ w + n, rest) := by
  induction w with
  | zero =>
    intro acc n rest hn
    interval_cases n
    simp [renderPad, parseDigitsAux]
  | succ w ih =>
    intro acc n rest hn
    have hdiv : n / 10 ^ w < 10 := by
      have h10 : (0:Nat) < 10 ^ w := Nat.pos_pow_of_pos w (by norm_num)
      rw [Nat.div_lt_iff_lt_mul h10]
      calc n < 10 ^ (w + 1) := hn
        _ = 10 * 10 ^ w := by ring
    have hmod : n % 10 ^ w < 10 ^ w := Nat.mod_lt _ (Nat.pos_pow_of_pos w (by norm_num))
    simp only [renderPad, List.cons_append, parseDigitsAux, isDigitC_digitChar,
      digitVal_digitChar _ hdiv, if_true]
    rw [ih _ _ _ hmod]
    have key : (acc * 10 + n / 10 ^ w) * 10 ^ w + n % 10 ^ w = acc * 10 ^ (w + 1) + n := by
      have hdm := Nat.div_add_mod n (10 ^ w)
      calc (acc * 10 + n / 10 ^ w) * 10 ^ w + n % 10 ^ w
          = acc * 10 ^ (w + 1) + (n / 10 ^ w * 10 ^ w + n % 10 ^ w) := by ring
        _ = acc * 10 ^ (w + 1) + n := by rw [Nat.mul_comm (n / 10 ^ w) (10 ^ w), hdm]
    rw [key]

theorem parseDigits_render (w n : Nat) (rest : List Char) (h : n < 10 ^ w) :
    parseDigits w (renderPad w n ++ rest) = some (n, rest) := by
  rw [parseDigits, parseDigitsAux_render w 0 n rest h, Nat.zero_mul, Nat.zero_add]

theorem replaceZChars_append (a b : List Char) :
    replaceZChars (a ++ b) = replaceZChars a ++ replaceZChars b := by
  induction a with
  | nil => rfl
  | cons c t ih =>
    by_cases h : c = 'Z' <;> simp [replaceZChars, h, ih]

theorem replaceZChars_renderPad (w n : Nat) :
    replaceZChars (renderPad w n) = renderPad w n := by
  induction w generalizing n with
  | zero => rfl
  | succ w ih => simp [renderPad, replaceZChars, digitChar_ne_Z, ih]

theorem replaceZ_dash (l : List Char) : replaceZChars ('-' :: l) = '-' :: replaceZChars l := rfl

theorem replaceZ_sep (l : List Char) : replaceZChars ('T' :: l) = 'T' :: replaceZChars l := rfl

theorem replaceZ_colon (l : List Char) : replaceZChars (':' :: l) = ':' :: replaceZChars l := rfl

theorem replaceZ_tail :
    replaceZChars ['.', '0', '0', '0', 'Z'] =
      ['.', '0', '0', '0', '+', '0', '0', ':', '0', '0'] := rfl

theorem strftime_replaceZ (dt : DateTime) :
    replaceZChars (strftimeChars dt) =
      renderPad 4 dt.year ++ ('-' :: (renderPad 2 dt.month ++ ('-' :: (renderPad 2 dt.day ++
      ('T' :: (renderPad 2 dt.hour ++ (':' :: (renderPad 2 dt.minute ++ (':' :: (renderPad 2 dt.second ++
      ['.', '0', '0', '0', '+', '0', '0', ':', '0', '0'])))))))))) := by
  simp [strftimeChars, replaceZChars_append, replaceZChars_renderPad, replaceZ_dash,
    replaceZ_sep, replaceZ_colon, replaceZ_tail, List.cons_append, List.append_assoc]

theorem daysInMonth_le (y m : Nat) : daysInMonth y m ≤ 31 := by
  unfold daysInMonth
  split <;> split <;> decide

theorem parseOffset_concrete : parseOffset ['+', '0', '0', ':', '0', '0'] = some () := rfl

theorem parseSecFrac_render (s : Nat) (hs : s < 10 ^ 2) :
    parseSecFrac (':' :: (renderPad 2 s ++ ['.', '0', '0', '0', '+', '0', '0', ':', '0', '0'])) =
      some (s, ['+', '0', '0', ':', '0', '0']) := by
  simp only [parseSecFrac]
  rw [parseDigits_render 2 s _ hs]
  rfl

theorem parseTimePart_render (h mi s : Nat) (hh : h < 10 ^ 2) (hmi : mi < 10 ^ 2)
    (hs : s < 10 ^ 2) :
    parseTimePart (renderPad 2 h ++ (':' :: (renderPad 2 mi ++ (':' :: (renderPad 2 s ++
      ['.', '0', '0', '0', '+', '0', '0', ':', '0', '0']))))) = some (h, mi, s) := by
  simp only [parseTimePart]
  rw [parseDigits_render 2 h _ hh]
  simp only [reduceIte]
  rw [parseDigits_render 2 mi _ hmi]
  simp only [reduceIte]
  rw [parseSecFrac_render s hs]
  rfl

theorem parseIso_render (y mo d h mi s : Nat) (hy : y < 10 ^ 4) (hmo : mo < 10 ^ 2)
    (hd : d < 10 ^ 2) (hh : h < 10 ^ 2) (hmi : mi < 10 ^ 2) (hs : s < 10 ^ 2) :
    parseIso (renderPad 4 y ++ ('-' :: (renderPad 2 mo ++ ('-' :: (renderPad 2 d ++
      ('T' :: (renderPad 2 h ++ (':' :: (renderPad 2 mi ++ (':' :: (renderPad 2 s ++
      ['.', '0', '0', '0', '+', '0', '0', ':', '0', '0'])))))))))))
      = mkDateTime y mo d h mi s := by
  simp only [parseIso]
  rw [parseDigits_render 4 y _ hy]
  simp only [expectChar, reduceIte]
  rw [parseDigits_render 2 mo _ hmo]
  simp only [expectChar, reduceIte]
  rw [parseDigits_render 2 d _ hd]
  simp only [reduceIte]
  rw [parseTimePart_render h mi s hh hmi hs]

theorem mkDateTime_valid (y mo d h mi s : Nat) (dt : DateTime)
    (hmk : mkDateTime y mo d h mi s = some dt) : validDT dt = true := by
  unfold mkDateTime at hmk
  split at hmk
  · rename_i hcond
    injection hmk with heq
    subst heq
    simpa [validDT] using hcond
  · cases hmk

theorem parseIso_valid (l : List Char) (dt : DateTime) (h : parseIso l = some dt) :
    validDT dt = true := by
  unfold parseIso at h
  iterate 8 (all_goals (try split at h))
  all_goals first
  | cases h
  | exact mkDateTime_valid _ _ _ _ _ _ _ h

theorem fromisoformatZ_valid (s : String) (dt : DateTime) (h : fromisoformatZ s = some dt) :
    validDT dt = true := parseIso_valid _ _ h

theorem validDT_bounds (dt : DateTime) (h : validDT dt = true) :
    dt.year < 10 ^ 4 ∧ dt.month < 10 ^ 2 ∧ dt.day < 10 ^ 2 ∧ dt.hour < 10 ^ 2 ∧
      dt.minute < 10 ^ 2 ∧ dt.second < 10 ^ 2 := by
  have h31 := daysInMonth_le dt.year dt.month
  simp only [validDT, validDate, Bool.and_eq_true, decide_eq_true_eq] at h
  have e4 : (10 : Nat) ^ 4 = 10000 := by norm_num
  have e2 : (10 : Nat) ^ 2 = 100 := by norm_num
  simp only [e4, e2]
  omega

theorem fromisoformatZ_strftime (dt : DateTime) (hv : validDT dt = true) :
    fromisoformatZ (strftimeMs dt) = some dt := by
  obtain ⟨hy, hmo, hd, hh, hmi, hs⟩ := validDT_bounds dt hv
  simp only [fromisoformatZ]
  have hdata : (strftimeMs dt).data = strftimeChars dt := rfl
  rw [hdata, strftime_replaceZ dt,
    parseIso_render dt.year dt.month dt.day dt.hour dt.minute dt.second hy hmo hd hh hmi hs]
  have hcond : (validDate dt.year dt.month dt.day && dt.hour ≤ 23 && dt.minute ≤ 59 &&
      dt.second ≤ 59) = true := by simpa [validDT] using hv
  simp [mkDateTime, hcond]

theorem strftimeMs_ne_empty (dt : DateTime) : strftimeMs dt ≠ "" := by
  intro hcon
  have hlen : (strftimeChars dt).length = 24 := by
    simp [strftimeChars, renderPad_length]
  have hd : strftimeChars dt = [] := congrArg String.data hcon
  rw [hd] at hlen
  simp at hlen

/-- C6 (amended): for any appointment whose start time parses, with a
positive duration and no source end time, the normalized end time is start
plus duration rendered as `YYYY-MM-DDTHH:MM:SS.000Z` — provided the sum
stays inside the representable calendar range (`addMinutesChecked`
succeeds); an overflowing sum raises in Python, is caught, and leaves the
end time absent. -/
theorem c6_end_time_derivation (s : String) (dt dt2 : DateTime) (d : Int)
    (h1 : fromisoformatZ s = some dt) (h2 : 0 < d) (h3 : addMinutesChecked dt d = some dt2) :
    computeEndTime none (formatStartTime (some s)) (some d) = some (strftimeMs dt2) := by
  have hv := fromisoformatZ_valid s dt h1
  have hrt := fromisoformatZ_strftime dt hv
  have hne := strftimeMs_ne_empty dt
  have hfs : formatStartTime (some s) = some (strftimeMs dt) := by
    simp [formatStartTime, h1]
  rw [hfs]
  have hd0 : d ≠ 0 := by omega
  simp [computeEndTime, truthyOS, truthyOI, hne, hd0, hrt, h3, durVal]

theorem filter_strip_all (l : List (String × JVal)) :
    (l.filter (fun kv => !kv.2.isNull)).all (fun kv => !kv.2.isNull) = true := by
  rw [List.all_eq_true]
  intro kv hkv
  exact (List.mem_filter.mp hkv).2

/-- C1 (amended): the payload builder strips `None`-valued keys at the TOP
level of the RoomEvent only — every top-level key of the emitted
`event_input` is bound to a non-null value. -/
theorem c1_top_level_strip (cfg : Option String) (p : WebhookPayload) :
    (buildRoomEventInput cfg p).all (fun kv => !kv.2.isNull) = true := by
  simp only [buildRoomEventInput]
  exact filter_strip_all _

/-- C1 counterexample: for a concrete normalized input, the serialized
RoomEvent still contains keys bound to `null` at nesting depth two (inside
the nested `appointment` record), so the stripping is not recursive. -/
theorem c1_nested_null_counterexample :
    JVal.hasNullField (.obj (buildRoomEventInput none payload0)) = true := by decide

/-- C2 (amended): the dispatcher's attempt budget is hardcoded to one
(`while attempts < 1`): against any endpoint that never returns HTTP 200 it
issues exactly 1 POST, sleeps the 2-unit base backoff once, and reports
failure without raising to its caller. -/
theorem c2_hardcoded_single_attempt (f : Nat → HttpResult)
    (hf : ∀ k, isStatus200 (f k) = false) :
    sendWebhookRun f = ⟨1, [2], false⟩ := by
  have e : sendLoopAux f 1 0 2 =
      if isStatus200 (f 1) then ⟨1, [], true⟩ else ⟨1, [2], false⟩ := rfl
  rw [sendWebhookRun, e, hf 1]
  simp

/-- C2 witness: the always-500 endpoint concretely. -/
theorem c2_witness : sendWebhookRun alwaysFail500 = ⟨1, [2], false⟩ :=
  c2_hardcoded_single_attempt alwaysFail500 (fun _ => rfl)

/-- C2 counterexample: against an endpoint that always returns HTTP 500 the
dispatcher issues exactly 1 POST, not 3. -/
theorem c2_three_attempts_counterexample :
    (sendWebhookRun alwaysFail500).posts = 1 ∧ ¬ (sendWebhookRun alwaysFail500).posts = 3 := by
  decide

/-- C3 (amended): whenever the appointment is retrieved, the entry point
returns exactly the single acknowledgement effect, regardless of assembly
faults and regardless of the webhook responder's behavior. -/
theorem c3_ack_when_retrieved (ev : EventInput) (clock : Clock) (secrets : Secrets)
    (fault : Bool) (responder : Nat → HttpResult) (raw : RawAppointment)
    (h : getAppointment ev = some raw) :
    (computeFull ev clock secrets fault responder).effects = [ackEffect ev] := by
  unfold computeFull
  rw [h]
  cases fault <;> simp

/-- C3 witness: a concrete retrieved appointment with a failing webhook. -/
theorem c3_witness :
    (computeFull ev1 clock0 secrets0 false alwaysFail500).effects = [ackEffect ev1] :=
  c3_ack_when_retrieved ev1 clock0 secrets0 false alwaysFail500 raw0 rfl

/-- C3 counterexample: when the appointment cannot be retrieved (no
instance, empty query) the entry point returns the empty effect list, not
the acknowledgement — the claim's "regardless of ... inability to retrieve
the appointment" fails. -/
theorem c3_missing_appointment_counterexample :
    (computeFull ev0 clock0 secrets0 false alwaysFail500).effects = [] ∧
    ¬ (computeFull ev0 clock0 secrets0 false alwaysFail500).effects = [ackEffect ev0] := by
  decide

theorem sendWebhookRun_posts (f : Nat → HttpResult) : (sendWebhookRun f).posts = 1 := by
  have e : sendLoopAux f 1 0 2 =
      if isStatus200 (f 1) then ⟨1, [], true⟩ else ⟨1, [2], false⟩ := rfl
  rw [sendWebhookRun, e]
  cases hc : isStatus200 (f 1) <;> simp

/-- C4: for every event whose appointment is retrieved, the classifier gate
is bypassed (`is_test_orh_appointment = True` right before the check):
whatever value `b` the TEST-OneRoomHealth matching rule evaluates to, the
event proceeds to payload construction and exactly one delivery attempt. -/
theorem c4_classifier_bypassed (ev : EventInput) (clock : Clock) (secrets : Secrets)
    (responder : Nat → HttpResult) (raw : RawAppointment) (b : Bool)
    (h : getAppointment ev = some raw)
    (_hb : matchesTestOrh (resolveApptType raw.appointment_type raw.appointmentTypeCamel)
      raw.note_type_id = b) :
    (computeFull ev clock secrets false responder).posts = 1 := by
  unfold computeFull
  rw [h]
  simp [sendWebhookRun_posts]

/-- C4 witness: a concrete appointment for which the matching rule is
`false` still gets its webhook sent. -/
theorem c4_witness : (computeFull ev1 clock0 secrets0 false alwaysFail500).posts = 1 :=
  c4_classifier_bypassed ev1 clock0 secrets0 alwaysFail500 raw0 false rfl (by decide)

/-- C5: with a configured (non-empty) signing secret the
`x-canvas-signature` header equals the HMAC-SHA256 hex digest of the body
under that secret (the digest of the real function is never the empty
string); with no secret configured the header is absent. -/
theorem c5_signature_header (apiKey secret : String) (hmac : String → String → String)
    (body : String) :
    (secret ≠ "" → hmac secret body ≠ "" →
      (webhookHeaders apiKey secret hmac body).lookup "x-canvas-signature" =
        some (hmac secret body)) ∧
    (secret = "" →
      (webhookHeaders apiKey secret hmac body).lookup "x-canvas-signature" = none) := by
  constructor
  · intro hs hh
    by_cases ha : apiKey = "" <;> simp [webhookHeaders, hs, hh, ha, List.lookup]
  · intro hs
    by_cases ha : apiKey = "" <;> simp [webhookHeaders, hs, ha, List.lookup]

/-- C5 witness: a concrete secret and body, and the no-secret case. -/
theorem c5_witness :
    (webhookHeaders "" "s" hmacDemo "b").lookup "x-canvas-signature" =
      some (hmacDemo "s" "b") ∧
    (webhookHeaders "" "" hmacDemo "b").lookup "x-canvas-signature" = none :=
  ⟨(c5_signature_header "" "s" hmacDemo "b").1 (by decide) (by decide),
   (c5_signature_header "" "" hmacDemo "b").2 rfl⟩

/-- C6 witness: `2024-01-01T10:00:00Z` plus 30 minutes gives
`2024-01-01T10:30:00.000Z`. -/
theorem c6_witness :
    computeEndTime none (formatStartTime (some "2024-01-01T10:00:00Z")) (some 30) =
      some "2024-01-01T10:30:00.000Z" := by
  have h := c6_end_time_derivation "2024-01-01T10:00:00Z" ⟨2024, 1, 1, 10, 0, 0⟩
    ⟨2024, 1, 1, 10, 30, 0⟩ 30 (by decide) (by decide) (by decide)
  rw [h]
  rfl

/-- C6 counterexample: a parseable start time with a positive duration and
no end time for which the code emits NO end time at all (the addition
overflows `datetime.max`, the exception is caught, and `end_time` stays
`None`), while the claim demands start plus duration. -/
theorem c6_overflow_counterexample :
    fromisoformatZ "9999-12-31T23:59:00Z" = some ⟨9999, 12, 31, 23, 59, 0⟩ ∧
    computeEndTime none (formatStartTime (some "9999-12-31T23:59:00Z")) (some 30) = none := by
  constructor <;> rfl

/-- C7 (amended): the pipeline from raw view to serialized RoomEvent bytes
is a pure function of the raw view and the process-clock reading: two
normalizations with equal clock readings are byte-identical. -/
theorem c7_deterministic_given_clock (cfg : Option String) (ev : EventInput)
    (raw : RawAppointment) (c1 c2 : Clock) (h : c1 = c2) :
    buildWire cfg ev c1 raw = buildWire cfg ev c2 raw := by
  rw [h]

/-- C7 witness: a concrete double normalization at one clock reading. -/
theorem c7_witness : buildWire none ev1 clock0 raw0 = buildWire none ev1 clock0 raw0 :=
  c7_deterministic_given_clock none ev1 raw0 clock0 clock0 rfl

/-- C7 counterexample: the same raw view normalized at two different clock
readings yields different bytes (the payload embeds
`datetime.now().isoformat()`), so "normalizing the same raw view twice" is
not byte-identical across time. -/
theorem c7_clock_counterexample :
    ¬ buildWire none ev1 clock0 raw0 = buildWire none ev1 clockLater raw0 := by
  decide

/-- C8 (amended): the combined `id` is `"{roomId}_{eventId}"` when both are
non-empty, and otherwise equals `eventId` — in particular it is the empty
string whenever `eventId` is empty, even though `roomId` is non-empty. -/
theorem c8_combined_id (cfg : Option String) (p : WebhookPayload) :
    (buildRoomEventInput cfg p).lookup "id" =
      some (.str (if roomIdOf cfg p ≠ "" ∧ eventIdOf p ≠ "" then
        roomIdOf cfg p ++ "_" ++ eventIdOf p else eventIdOf p)) := by
  simp [buildRoomEventInput, combinedEventIdOf, List.lookup, List.filter, JVal.isNull]

/-- C8 counterexample: with an empty appointment id the roomId falls back
to the non-empty `"unknown-room"`, yet the combined id is the empty string
rather than that non-empty roomId. -/
theorem c8_empty_event_id_counterexample :
    roomIdOf none payloadEmptyId = "unknown-room" ∧
    eventIdOf payloadEmptyId = "" ∧
    (buildRoomEventInput none payloadEmptyId).lookup "id" = some (.str "") ∧
    ("" : String) ≠ "unknown-room" := by
  refine ⟨rfl, rfl, rfl, by decide⟩

/-- C9: the computed age is whole years between birth date and the current
date, reduced by one when the current (month, day) precedes the birth
(month, day); string birth dates go through `strptime` and any parse
failure yields absence instead of raising; concretely 1990-06-15 gives 33
on 2024-06-14 and 34 on 2024-06-15. -/
theorem c9_age_calculation :
    (∀ (d today : Date), calculateAge (some (Sum.inl d)) today = some (ageOf d today)) ∧
    (∀ (s : String) (today : Date) (d : Date), strptimeDate s = some d →
      calculateAge (some (Sum.inr s)) today = some (ageOf d today)) ∧
    (∀ (s : String) (today : Date), strptimeDate s = none →
      calculateAge (some (Sum.inr s)) today = none) ∧
    calculateAge (some (Sum.inl ⟨1990, 6, 15⟩)) ⟨2024, 6, 14⟩ = some 33 ∧
    calculateAge (some (Sum.inl ⟨1990, 6, 15⟩)) ⟨2024, 6, 15⟩ = some 34 := by
  refine ⟨fun d t => rfl, fun s t d h => ?_, fun s t h => ?_, by decide, by decide⟩
  · have hs : ¬ s = "" := by
      intro he
      rw [he, show strptimeDate "" = none from rfl] at h
      cases h
    simp [calculateAge, hs, h]
  · by_cases hs : s = "" <;> simp [calculateAge, hs, h]

/-- C9 witness: the string form of the birth date and a parse failure. -/
theorem c9_witness :
    calculateAge (some (Sum.inr "1990-06-15")) ⟨2024, 6, 14⟩ =
      some (ageOf ⟨1990, 6, 15⟩ ⟨2024, 6, 14⟩) ∧
    calculateAge (some (Sum.inr "nineteen-ninety")) ⟨2024, 6, 14⟩ = none :=
  ⟨c9_age_calculation.2.1 "1990-06-15" ⟨2024, 6, 14⟩ ⟨1990, 6, 15⟩ (by decide),
   c9_age_calculation.2.2.1 "nineteen-ninety" ⟨2024, 6, 14⟩ (by decide)⟩

/-- C10: when the event target carries no appointment instance and the
fallback query finds nothing, the entry point returns the empty effect
list: no acknowledgement effect and no webhook POST. -/
theorem c10_no_appointment_empty_result (ev : EventInput) (clock : Clock)
    (secrets : Secrets) (fault : Bool) (responder : Nat → HttpResult)
    (h1 : ev.targetInstance = none) (h2 : ev.queryResult = none) :
    computeFull ev clock secrets fault responder = ⟨[], 0, none⟩ := by
  simp [computeFull, getAppointment, h1, h2]

/-- C10 witness: the concrete instanceless event. -/
theorem c10_witness : computeFull ev0 clock0 secrets0 false alwaysFail500 = ⟨[], 0, none⟩ :=
  c10_no_appointment_empty_result ev0 clock0 secrets0 false alwaysFail500 rfl rfl
